import Mathlib

/-!
Verification of the kivy provider-registry subsystem against its design
specification.

The development shallowly embeds three source files:
  * `kivy/core/clipboard/__init__.py` — the `ClipboardBase` contract
    (`copy`/`paste`/`_ensure_clipboard`), the platform-specific candidate
    list `_clipboards`, and the Linux `CutBuffer` aliasing logic;
  * `kivy/input/providers/__init__.py` — the guarded sequence of
    provider-module imports;
  * the registry accessors exercised by `kivy/tests/test_provider_registry.py`
    (modelled from the spec where the accessor code itself is out of scope).

Python values that may be `bytes` or `str` are embedded as `PyData`; the
text codecs used by the clipboard (`utf-8` and `utf-16-le`, with the
`'ignore'` error handler on decode) are embedded as executable functions
on byte lists.
-/

/-- Python clipboard payloads are either `bytes` or `str`. -/
inductive PyData where
  | bytes (bs : List Nat)
  | str (s : String)
deriving DecidableEq, Repr

/-- Python truthiness for the payloads `copy` can receive: empty bytes and
the empty string are falsy. -/
def pyTruthy : PyData → Bool
  | PyData.bytes bs => !bs.isEmpty
  | PyData.str s => !s.isEmpty

/-- UTF-8 encoding of a single scalar value (1–4 bytes). -/
def utf8EncodeChar (c : Char) : List Nat :=
  let n := c.toNat
  if n < 0x80 then [n]
  else if n < 0x800 then [0xC0 + n / 64, 0x80 + n % 64]
  else if n < 0x10000 then
    [0xE0 + n / 4096, 0x80 + (n / 64) % 64, 0x80 + n % 64]
  else
    [0xF0 + n / 262144, 0x80 + (n / 4096) % 64, 0x80 + (n / 64) % 64,
     0x80 + n % 64]

/-- UTF-8 encoding of a string, as Python's `str.encode('utf-8')`. -/
def utf8Encode (s : String) : List Nat :=
  s.data.foldr (fun c acc => utf8EncodeChar c ++ acc) []

/-- Whether a byte is a UTF-8 continuation byte. -/
def utf8Cont (b : Nat) : Bool := 0x80 ≤ b && b < 0xC0

/-- Validity of the two trailing bytes of a 3-byte UTF-8 sequence headed by
`b1` (excludes overlong forms and surrogates). -/
def utf8Valid3 (b1 b2 b3 : Nat) : Bool :=
  (if b1 = 0xE0 then 0xA0 ≤ b2 && b2 ≤ 0xBF
   else if b1 = 0xED then 0x80 ≤ b2 && b2 ≤ 0x9F
   else utf8Cont b2) && utf8Cont b3

/-- Validity of the three trailing bytes of a 4-byte UTF-8 sequence headed
by `b1` (excludes overlong forms and values above U+10FFFF). -/
def utf8Valid4 (b1 b2 b3 b4 : Nat) : Bool :=
  (if b1 = 0xF0 then 0x90 ≤ b2 && b2 ≤ 0xBF
   else if b1 = 0xF4 then 0x80 ≤ b2 && b2 ≤ 0x8F
   else utf8Cont b2) && utf8Cont b3 && utf8Cont b4

/-- UTF-8 decoding with Python's `'ignore'` error handler: valid sequences
are decoded, bytes that do not start a valid sequence are skipped. The
first argument is recursion fuel; each step consumes at least one byte, so
`fuel = bs.length` (as supplied by `utf8DecodeIgnore`) always suffices. -/
def utf8DecodeIgnoreAux : Nat → List Nat → List Char
  | 0, _ => []
  | _, [] => []
  | fuel + 1, b :: rest =>
    if b < 0x80 then Char.ofNat b :: utf8DecodeIgnoreAux fuel rest
    else if 0xC2 ≤ b && b ≤ 0xDF then
      match rest with
      | [] => []
      | b2 :: rest2 =>
        if utf8Cont b2 then
          Char.ofNat ((b - 0xC0) * 64 + (b2 - 0x80)) ::
            utf8DecodeIgnoreAux fuel rest2
        else utf8DecodeIgnoreAux fuel rest
    else if 0xE0 ≤ b && b ≤ 0xEF then
      match rest with
      | b2 :: b3 :: rest3 =>
        if utf8Valid3 b b2 b3 then
          Char.ofNat ((b - 0xE0) * 4096 + (b2 - 0x80) * 64 + (b3 - 0x80)) ::
            utf8DecodeIgnoreAux fuel rest3
        else utf8DecodeIgnoreAux fuel rest
      | _ => []
    else if 0xF0 ≤ b && b ≤ 0xF4 then
      match rest with
      | b2 :: b3 :: b4 :: rest4 =>
        if utf8Valid4 b b2 b3 b4 then
          Char.ofNat ((b - 0xF0) * 262144 + (b2 - 0x80) * 4096 +
              (b3 - 0x80) * 64 + (b4 - 0x80)) ::
            utf8DecodeIgnoreAux fuel rest4
        else utf8DecodeIgnoreAux fuel rest
      | _ => []
    else utf8DecodeIgnoreAux fuel rest

/-- UTF-8 decoding with the `'ignore'` error handler. -/
def utf8DecodeIgnore (bs : List Nat) : List Char :=
  utf8DecodeIgnoreAux bs.length bs

/-- UTF-16-LE encoding of a single scalar value (2 or 4 bytes, low byte
first; astral characters become a surrogate pair). -/
def utf16leEncodeChar (c : Char) : List Nat :=
  let n := c.toNat
  if n < 0x10000 then [n % 256, n / 256]
  else
    let m := n - 0x10000
    let hi := 0xD800 + m / 1024
    let lo := 0xDC00 + m % 1024
    [hi % 256, hi / 256, lo % 256, lo / 256]

/-- UTF-16-LE encoding of a string, as Python's `str.encode('utf-16-le')`. -/
def utf16leEncode (s : String) : List Nat :=
  s.data.foldr (fun c acc => utf16leEncodeChar c ++ acc) []

/-- UTF-16-LE decoding with Python's `'ignore'` error handler: code units
are read low byte first; unpaired surrogates and a trailing odd byte are
skipped. The first argument is recursion fuel; each step consumes at least
two bytes, so `fuel = bs.length` always suffices. -/
def utf16leDecodeIgnoreAux : Nat → List Nat → List Char
  | 0, _ => []
  | fuel + 1, b0 :: b1 :: rest =>
    let u := b0 + 256 * b1
    if u < 0xD800 || 0xE000 ≤ u then
      Char.ofNat u :: utf16leDecodeIgnoreAux fuel rest
    else if u < 0xDC00 then
      match rest with
      | c0 :: c1 :: rest2 =>
        let v := c0 + 256 * c1
        if 0xDC00 ≤ v && v < 0xE000 then
          Char.ofNat (0x10000 + (u - 0xD800) * 1024 + (v - 0xDC00)) ::
            utf16leDecodeIgnoreAux fuel rest2
        else utf16leDecodeIgnoreAux fuel rest
      | _ => []
    else utf16leDecodeIgnoreAux fuel rest
  | _, _ => []

/-- UTF-16-LE decoding with the `'ignore'` error handler. -/
def utf16leDecodeIgnore (bs : List Nat) : List Char :=
  utf16leDecodeIgnoreAux bs.length bs

/-- Python's `str.encode(encoding)` for the two encodings the clipboard
state machine ever installs (`'utf-16-le'` on Windows, `'utf-8'`
elsewhere). -/
def pyEncode (encoding : String) (s : String) : List Nat :=
  if encoding = "utf-16-le" then utf16leEncode s else utf8Encode s

/-- Python's `bytes.decode(encoding, 'ignore')` for the two encodings the
clipboard state machine ever installs. -/
def pyDecodeIgnore (encoding : String) (bs : List Nat) : String :=
  if encoding = "utf-16-le" then String.mk (utf16leDecodeIgnore bs)
  else String.mk (utf8DecodeIgnore bs)

/-- Python's `data.replace(u'\x00', u'')`: remove every NUL character. -/
def stripNulls (s : String) : String :=
  String.mk (s.data.filter (fun c => c ≠ Char.ofNat 0))

/-!
Embedding of `ClipboardBase` (`kivy/core/clipboard/__init__.py`).

A concrete backend overrides the primitives `get`, `put` and `get_types`;
`put` may mutate backend-internal state of type `σ`, which is threaded
explicitly. The base class defaults are `baseBackend` below (`get` and
`put` are `pass`, `get_types` returns `[]`).
-/

/-- The raw primitives a concrete clipboard backend supplies, with its
internal state `σ` passed explicitly. `get` returns `none` for Python
`None`. -/
structure Backend (σ : Type) where
  get : σ → String → Option PyData
  put : σ → PyData → String → σ
  get_types : σ → List String

/-- The base-class defaults: `get` is `pass` (returns `None`), `put` is
`pass` (no effect), `get_types` returns the empty list. -/
def baseBackend : Backend Unit where
  get := fun _ _ => none
  put := fun s _ _ => s
  get_types := fun _ => []

/-- The mutable state of one `ClipboardBase` instance: the lazily
initialised pair (`_clip_mime_type`, `_encoding`) — `none` models the
attributes being absent, as `hasattr` tests — plus the backend state. -/
structure ClipState (σ : Type) where
  clip : Option (String × String)
  backend : σ
deriving DecidableEq, Repr

/-- `ClipboardBase._ensure_clipboard`: if `_clip_mime_type` is already
set, keep it; otherwise install the platform-dependent pair
(`_clip_mime_type`, `_encoding`). -/
def ensure_clipboard (platform : String) (clip : Option (String × String)) :
    String × String :=
  match clip with
  | some c => c
  | none =>
    if platform = "win" then ("text/plain;charset=utf-8", "utf-16-le")
    else if platform = "linux" then ("text/plain;charset=utf-8", "utf-8")
    else ("text/plain", "utf-8")

/-- The configuration `_ensure_clipboard` computes on a fresh instance. -/
def freshConfig (platform : String) : String × String :=
  ensure_clipboard platform none

/-- `ClipboardBase._copy`: ensure configured, encode `str` data with the
cached encoding (bytes pass through), and forward to the backend's
`put(data, self._clip_mime_type)`. -/
def clipboard_copy_raw {σ : Type} (platform : String) (B : Backend σ)
    (st : ClipState σ) (data : PyData) : ClipState σ :=
  let c := ensure_clipboard platform st.clip
  let payload : List Nat :=
    match data with
    | PyData.bytes bs => bs
    | PyData.str s => pyEncode c.2 s
  { clip := some c, backend := B.put st.backend (PyData.bytes payload) c.1 }

/-- `ClipboardBase.copy`: `if data: self._copy(data)` — a no-op on falsy
data. -/
def clipboard_copy {σ : Type} (platform : String) (B : Backend σ)
    (st : ClipState σ) (data : PyData) : ClipState σ :=
  if pyTruthy data then clipboard_copy_raw platform B st data else st

/-- `ClipboardBase._paste`: ensure configured; read the supported types
with `Clipboard.get_types()` — the module-global singleton, so its result
is the parameter `globalTypes` here, not `self.get_types()`; fall back to
`'text/plain'` when the cached MIME type is not offered; `get` the data;
decode bytes with the cached encoding and the `'ignore'` handler; strip
NUL characters; return `u''` when `get` gave `None`. Returns the pasted
string together with the updated instance state. -/
def clipboard_paste {σ : Type} (platform : String) (B : Backend σ)
    (globalTypes : List String) (st : ClipState σ) :
    String × ClipState σ :=
  let c := ensure_clipboard platform st.clip
  let mime := if c.1 ∈ globalTypes then c.1 else "text/plain"
  let st' : ClipState σ := { clip := some c, backend := st.backend }
  match B.get st.backend mime with
  | none => ("", st')
  | some d =>
    let s :=
      match d with
      | PyData.bytes bs => pyDecodeIgnore c.2 bs
      | PyData.str s => s
    (stripNulls s, st')

/-- One user-level clipboard operation; a paste records the value the
module-global `Clipboard.get_types()` returns at that moment. -/
inductive ClipOp where
  | copyOp (data : PyData)
  | pasteOp (globalTypes : List String)

/-- Run one clipboard operation on an instance. -/
def runClipOp {σ : Type} (platform : String) (B : Backend σ)
    (st : ClipState σ) : ClipOp → ClipState σ
  | ClipOp.copyOp d => clipboard_copy platform B st d
  | ClipOp.pasteOp g => (clipboard_paste platform B g st).2

/-- Run a sequence of clipboard operations on an instance. -/
def runClipOps {σ : Type} (platform : String) (B : Backend σ)
    (st : ClipState σ) (ops : List ClipOp) : ClipState σ :=
  ops.foldl (runClipOp platform B) st

/-- The MIME type `_paste` actually requests: the cached preferred type
when the offered type list contains it, else the generic `'text/plain'`. -/
def chooseMime (preferred : String) (types : List String) : String :=
  if preferred ∈ types then preferred else "text/plain"

/-- Conversion of retrieved clipboard data to text: bytes are decoded with
the cached encoding under the `'ignore'` handler, text passes through. -/
def decodePayload (encoding : String) : PyData → String
  | PyData.bytes bs => pyDecodeIgnore encoding bs
  | PyData.str s => s

/-- The paste behaviour claim C6 ascribes to the code, stated from the
claim's words: the instance is said to query ITS OWN backend's
`get_types` (rather than the module-global singleton's) before choosing
the MIME type. Kept separate from `clipboard_paste` so the two can be
compared. -/
def pasteClaimOwnTypes {σ : Type} (platform : String) (B : Backend σ)
    (st : ClipState σ) : String :=
  let c := ensure_clipboard platform st.clip
  match B.get st.backend (chooseMime c.1 (B.get_types st.backend)) with
  | none => ""
  | some d => stripNulls (decodePayload c.2 d)

/-- The amended paste behaviour: identical to claim C6 except that the
offered MIME types are those of the module-global `Clipboard` singleton
(`globalTypes`), exactly as `_paste` reads them via
`Clipboard.get_types()`. -/
def pasteSpecGlobalTypes {σ : Type} (platform : String) (B : Backend σ)
    (globalTypes : List String) (st : ClipState σ) : String :=
  let c := ensure_clipboard platform st.clip
  match B.get st.backend (chooseMime c.1 globalTypes) with
  | none => ""
  | some d => stripNulls (decodePayload c.2 d)

/-- A backend whose own `get_types` advertises the Linux preferred MIME
type and whose `get` answers only that type; used to separate an
instance's own `get_types` from the module-global singleton's. -/
def ownTypesBackend : Backend Unit where
  get := fun _ m =>
    if m = "text/plain;charset=utf-8" then some (PyData.str "DATA") else none
  put := fun s _ _ => s
  get_types := fun _ => ["text/plain;charset=utf-8"]

/-- A backend that stores the last byte payload put on it and returns it
verbatim from `get`, whatever MIME type is requested. -/
def verbatimBackend : Backend (Option (List Nat)) where
  get := fun s _ => s.map PyData.bytes
  put := fun s d _ =>
    match d with
    | PyData.bytes bs => some bs
    | PyData.str _ => s
  get_types := fun _ => []

/-!
Embedding of the input-provider enumeration
(`kivy/input/providers/__init__.py`).

The module body is a sequence of `import` statements, some wrapped in
`try/except` with a logged warning, two (`tuio`, `mouse`) unconditional
and unguarded. The runtime environment is abstracted as `ImportEnv`:
the platform string, whether `KIVY_DOC` is in `os.environ`, the
`USE_SDL3` build flag, and which module imports succeed. Running the
module yields either the list of imported modules with the emitted log
messages, or — when an unguarded import fails — the propagated fault
carrying the failing module's name.
-/

/-- The environment the input-provider module body observes. -/
structure ImportEnv where
  platform : String
  kivyDoc : Bool
  useSDL3 : Bool
  canImport : String → Bool

/-- An unguarded `import m`: on failure the fault propagates. -/
def runImport (env : ImportEnv) (m : String)
    (st : List String × List String) :
    Except String (List String × List String) :=
  if env.canImport m then Except.ok (st.1 ++ [m], st.2) else Except.error m

/-- A `try:` block of imports with one `except Exception:` logging `err`:
modules import in order; the first failure abandons the rest of the block
and appends the log message; nothing propagates. -/
def runGuardedImports (env : ImportEnv) (mods : List String) (err : String)
    (st : List String × List String) : List String × List String :=
  match mods with
  | [] => st
  | m :: rest =>
    if env.canImport m then
      runGuardedImports env rest err (st.1 ++ [m], st.2)
    else (st.1, st.2 ++ [err])

/-- The module body of `kivy/input/providers/__init__.py`, statement by
statement. -/
def loadInputProviders (env : ImportEnv) :
    Except String (List String × List String) := do
  let st ← runImport env "kivy.input.providers.tuio" ([], [])
  let st ← runImport env "kivy.input.providers.mouse" st
  let st :=
    if env.platform = "win" || env.kivyDoc then
      runGuardedImports env
        ["kivy.input.providers.wm_touch", "kivy.input.providers.wm_pen"]
        "Input: WM_Touch/WM_Pen not supported by your version of Windows" st
    else st
  let st :=
    if env.platform = "macosx" || env.kivyDoc then
      runGuardedImports env ["kivy.input.providers.mactouch"]
        "Input: MacMultitouchSupport is not supported by your system" st
    else st
  let st :=
    if env.platform = "linux" || env.kivyDoc then
      let st := runGuardedImports env ["kivy.input.providers.probesysfs"]
        "Input: ProbeSysfs is not supported by your version of linux" st
      let st := runGuardedImports env ["kivy.input.providers.mtdev"]
        "Input: MTDev is not supported by your version of linux" st
      let st := runGuardedImports env ["kivy.input.providers.hidinput"]
        "Input: HIDInput is not supported by your version of linux" st
      runGuardedImports env ["kivy.input.providers.linuxwacom"]
        "Input: LinuxWacom is not supported by your version of linux" st
    else st
  let st :=
    if (env.platform = "android" && !env.useSDL3) || env.kivyDoc then
      runGuardedImports env ["kivy.input.providers.androidjoystick"]
        "Input: AndroidJoystick is not supported by your version of linux" st
    else st
  let st := runGuardedImports env ["kivy.input.providers.leapfinger"]
    "Input: LeapFinger is not available on your system" st
  return st

/-- An environment on Linux in which only the `tuio` base provider fails
to import. -/
def tuioFailsEnv : ImportEnv where
  platform := "linux"
  kivyDoc := false
  useSDL3 := false
  canImport := fun m => m ≠ "kivy.input.providers.tuio"

/-!
Modelled from the spec: the registry accessor `get_provider_modules`
(`moduleMap`) lives in `kivy/core/__init__.py`, which is not among the
reviewed sources — only its conformance test
(`kivy/tests/test_provider_registry.py`, `TestHelperFunctions
.test_get_provider_modules_returns_copy`) is. Spec §4.2: "`moduleMap
(category) -> mapping short-name -> module_id`: returns an independent
copy; mutating the result must never affect the registry." To make copy
versus reference observable, dictionaries live in an explicit heap of
index-addressed cells; the registry maps each category to the address of
its dictionary, and the accessor allocates a fresh cell holding a copy of
the dictionary's contents and hands back the fresh address.
-/

/-- Modelled from the spec: the heap of dictionary objects together with
the registry, which holds for each category the address of its
name→module dictionary. -/
structure RegistryHeap where
  dicts : List (List (String × String))
  registry : List (String × Nat)
deriving DecidableEq, Repr

/-- Modelled from the spec: `get_provider_modules(category)` — look the
category up, read its dictionary, allocate a fresh cell with a copy of
the contents, and return the fresh address with the grown heap. `none`
models `UnknownCategory` or a dangling address. -/
def get_provider_modules (h : RegistryHeap) (category : String) :
    Option (Nat × RegistryHeap) :=
  match h.registry.lookup category with
  | none => none
  | some a =>
    match h.dicts.get? a with
    | none => none
    | some d => some (h.dicts.length, ⟨h.dicts ++ [d], h.registry⟩)

/-- A caller mutating the dictionary object at address `a` in place (the
test writes `result['test'] = 'test_module'`). -/
def mutateDict (h : RegistryHeap) (a : Nat) (d : List (String × String)) :
    RegistryHeap :=
  ⟨h.dicts.set a d, h.registry⟩

/-- Modelled from the spec: `make_provider_tuple(name, all_providers,
classname)` (defined in `kivy/core/__init__.py`, not among the reviewed
sources) builds the provider tuple the category bootstrap code consumes:
short name, module identifier looked up in the category's name→module
mapping, and backend class name. The test registry format fixes the
first two components; the `c[2]` access in the cut-buffer code fixes the
third. -/
def make_provider_tuple (name : String)
    (allProviders : List (String × String)) (cls : String) :
    String × Option String × String :=
  (name, allProviders.lookup name, cls)

/-- The module-level construction of the `_clipboards` candidate list
(`kivy/core/clipboard/__init__.py`, lines 112–138), as a function of the
platform string, the `USE_SDL3` flag and the registry's clipboard
name→module mapping. -/
def build_clipboards (platform : String) (useSDL3 : Bool)
    (allProviders : List (String × String)) :
    List (String × Option String × String) :=
  let cb0 :=
    if platform = "android" then
      [make_provider_tuple "android" allProviders "ClipboardAndroid"]
    else if platform = "macosx" then
      [make_provider_tuple "nspaste" allProviders "ClipboardNSPaste"]
    else if platform = "win" then
      [make_provider_tuple "winctypes" allProviders "ClipboardWindows"]
    else if platform = "linux" then
      [make_provider_tuple "xclip" allProviders "ClipboardXclip",
       make_provider_tuple "xsel" allProviders "ClipboardXsel",
       make_provider_tuple "dbusklipper" allProviders "ClipboardDbusKlipper",
       make_provider_tuple "gtk3" allProviders "ClipboardGtk3"]
    else []
  let cb1 :=
    if useSDL3 then
      cb0 ++ [make_provider_tuple "sdl3" allProviders "ClipboardSDL3"]
    else cb0
  cb1 ++ [make_provider_tuple "dummy" allProviders "ClipboardDummy"]

/-- A selected provider instance, abstracted to what the cut-buffer logic
inspects: `className` is `instance.__class__.__name__`; `objId` tags
object identity so aliasing is expressible. -/
structure ProviderInstance where
  className : String
  objId : Nat
deriving DecidableEq, Repr

/-- The module-level cut-buffer bootstrap
(`kivy/core/clipboard/__init__.py`, lines 141–156): `CutBuffer` stays
`None` off Linux; on Linux the two cut-buffer candidate tuples are built
and, when the selected `Clipboard`'s class name is among their class
names, `CutBuffer` is the very `Clipboard` object; otherwise a second
selection runs over only those two candidates. `core_select_lib` is not
among the reviewed sources, so the second selection's outcome is the
abstract parameter `select`. -/
def cut_buffer (platform : String) (allProviders : List (String × String))
    (clipboard : ProviderInstance)
    (select : List (String × Option String × String) →
      Option ProviderInstance) : Option ProviderInstance :=
  if platform = "linux" then
    let cutbuffers :=
      [make_provider_tuple "xclip" allProviders "ClipboardXclip",
       make_provider_tuple "xsel" allProviders "ClipboardXsel"]
    if clipboard.className ∈ cutbuffers.map (fun c => c.2.2) then
      some clipboard
    else select cutbuffers
  else none

/-- Whether a clipboard operation reaches `_ensure_clipboard`: every
`paste` does, a `copy` only with truthy data. -/
def opTriggersConfig : ClipOp → Bool
  | ClipOp.copyOp d => pyTruthy d
  | ClipOp.pasteOp _ => true

/-!
Theorems. Shared lemmas come first, then one theorem per claim C1–C10
(with a witness for each theorem that carries a hypothesis, and a
counterexample where a claim fails on the code).
-/

/-- Once the (`_clip_mime_type`, `_encoding`) pair is cached, a single
`copy` or `paste` never changes it: `_ensure_clipboard` returns early on
a configured instance. -/
theorem runClipOp_preserves_clip {σ : Type} (platform : String)
    (B : Backend σ) (st : ClipState σ) (c : String × String) (op : ClipOp)
    (h : st.clip = some c) :
    (runClipOp platform B st op).clip = some c := by
  cases op with
  | copyOp d =>
    simp only [runClipOp, clipboard_copy]
    by_cases ht : pyTruthy d = true
    · simp [ht, clipboard_copy_raw, ensure_clipboard, h]
    · simp [ht, h]
  | pasteOp g =>
    simp only [runClipOp, clipboard_paste, ensure_clipboard, h]
    cases B.get st.backend
        (if c.1 ∈ g then c.1 else "text/plain") <;> rfl

/-- Once configured, no sequence of `copy`/`paste` operations changes the
cached pair. -/
theorem runClipOps_preserves_clip {σ : Type} (platform : String)
    (B : Backend σ) (st : ClipState σ) (c : String × String)
    (ops : List ClipOp) (h : st.clip = some c) :
    (runClipOps platform B st ops).clip = some c := by
  induction ops generalizing st with
  | nil => simpa [runClipOps] using h
  | cons op rest ih =>
    simp only [runClipOps, List.foldl_cons]
    exact ih (runClipOp platform B st op)
      (runClipOp_preserves_clip platform B st c op h)

/-- Setting the freshly appended last cell of a list rewrites exactly that
cell. -/
theorem set_concat_length {α : Type} (l : List α) (x y : α) :
    (l ++ [x]).set l.length y = l ++ [y] := by
  induction l with
  | nil => rfl
  | cons a t ih => simp [List.set, ih]

/-- C2. `copy` with empty/falsy data is a no-op: the backend's `put` is
never reached (the result equals the input state for every backend,
including backends whose `put` always alters their state) and the cached
MIME-type/encoding pair is untouched. -/
theorem copy_falsy_is_noop {σ : Type} (platform : String) (B : Backend σ)
    (st : ClipState σ) (data : PyData) (h : pyTruthy data = false) :
    clipboard_copy platform B st data = st := by
  simp [clipboard_copy, h]

/-- Witness for C2 at `copy('')` on a fresh dummy-backed instance. -/
theorem copy_falsy_is_noop_witness :
    pyTruthy (PyData.str "") = false ∧
    clipboard_copy "linux" baseBackend ⟨none, ()⟩ (PyData.str "") =
      ⟨none, ()⟩ :=
  ⟨by decide,
   copy_falsy_is_noop "linux" baseBackend ⟨none, ()⟩ (PyData.str "")
     (by decide)⟩

/-- C3. On a backend whose `get` returns `None`, `paste()` returns the
empty string (the embedding is total, so no fault is raised). -/
theorem paste_none_returns_empty {σ : Type} (platform : String)
    (B : Backend σ) (globalTypes : List String) (st : ClipState σ)
    (h : ∀ s m, B.get s m = none) :
    (clipboard_paste platform B globalTypes st).1 = "" := by
  simp [clipboard_paste, h]

/-- Witness for C3: the base-class defaults (`get` is `pass`) paste as the
empty string. -/
theorem paste_none_returns_empty_witness :
    (∀ s m, baseBackend.get s m = none) ∧
    (clipboard_paste "win" baseBackend [] ⟨none, ()⟩).1 = "" :=
  ⟨fun _ _ => rfl,
   paste_none_returns_empty "win" baseBackend [] ⟨none, ()⟩
     (fun _ _ => rfl)⟩

/-- A single `paste` always leaves the cached pair equal to what
`_ensure_clipboard` computed from the incoming state. -/
theorem clipboard_paste_clip {σ : Type} (platform : String) (B : Backend σ)
    (g : List String) (st : ClipState σ) :
    (clipboard_paste platform B g st).2.clip =
      some (ensure_clipboard platform st.clip) := by
  simp only [clipboard_paste]
  cases B.get st.backend
      (if (ensure_clipboard platform st.clip).1 ∈ g then
        (ensure_clipboard platform st.clip).1 else "text/plain") <;> rfl

/-- C1. On any platform, against any backend whose `put`/`get` round-trip
byte payloads verbatim (whatever MIME type `paste` requests, `get` hands
back exactly the bytes previously passed to `put`), `copy('hello')`
followed by `paste()` on the same fresh instance returns `'hello'`. -/
theorem copy_paste_roundtrip_hello {σ : Type} (platform : String)
    (B : Backend σ) (s0 : σ) (globalTypes : List String)
    (h : ∀ s bs mime mime',
      B.get (B.put s (PyData.bytes bs) mime) mime' =
        some (PyData.bytes bs)) :
    (clipboard_paste platform B globalTypes
        (clipboard_copy platform B ⟨none, s0⟩ (PyData.str "hello"))).1 =
      "hello" := by
  have htruthy : pyTruthy (PyData.str "hello") = true := by decide
  simp only [clipboard_copy, htruthy, if_true, clipboard_copy_raw,
    clipboard_paste, ensure_clipboard]
  rw [h]
  by_cases hw : platform = "win"
  · subst hw; dsimp only; decide
  · by_cases hl : platform = "linux"
    · subst hl; simp only [hw, if_false, if_true]; decide
    · simp only [hw, hl, if_false]; decide

/-- Witness for C1: the byte-storing backend satisfies the round-trip
hypothesis, and the copy/paste pair yields `'hello'` on Windows. -/
theorem copy_paste_roundtrip_hello_witness :
    (∀ s bs mime mime',
      verbatimBackend.get (verbatimBackend.put s (PyData.bytes bs) mime)
          mime' = some (PyData.bytes bs)) ∧
    (clipboard_paste "win" verbatimBackend []
        (clipboard_copy "win" verbatimBackend ⟨none, none⟩
          (PyData.str "hello"))).1 = "hello" :=
  ⟨fun _ _ _ _ => rfl,
   copy_paste_roundtrip_hello "win" verbatimBackend none []
     (fun _ _ _ _ => rfl)⟩

/-- C4. The configuration transition is one-shot: the first `paste`, or
the first `copy` with truthy data, on a fresh instance installs the
platform's (`_clip_mime_type`, `_encoding`) pair, and no later sequence
of `copy`/`paste` operations ever changes the cached pair. -/
theorem config_transition_one_shot {σ : Type} (platform : String)
    (B : Backend σ) (s0 : σ) (op : ClipOp) (ops : List ClipOp)
    (h : opTriggersConfig op = true) :
    (runClipOp platform B ⟨none, s0⟩ op).clip =
      some (freshConfig platform) ∧
    (runClipOps platform B (runClipOp platform B ⟨none, s0⟩ op) ops).clip =
      some (freshConfig platform) := by
  have h1 : (runClipOp platform B ⟨none, s0⟩ op).clip =
      some (freshConfig platform) := by
    cases op with
    | copyOp d =>
      have ht : pyTruthy d = true := h
      simp [runClipOp, clipboard_copy, ht, clipboard_copy_raw, freshConfig]
    | pasteOp g =>
      simpa [freshConfig] using
        clipboard_paste_clip platform B g ⟨none, s0⟩
  exact ⟨h1, runClipOps_preserves_clip platform B _ _ ops h1⟩

/-- Witness for C4 on macOS: a truthy first copy configures, and a later
copy/paste pair leaves the cached pair alone. -/
theorem config_transition_one_shot_witness :
    opTriggersConfig (ClipOp.copyOp (PyData.str "x")) = true ∧
    ((runClipOp "macosx" baseBackend ⟨none, ()⟩
        (ClipOp.copyOp (PyData.str "x"))).clip =
      some (freshConfig "macosx") ∧
    (runClipOps "macosx" baseBackend
        (runClipOp "macosx" baseBackend ⟨none, ()⟩
          (ClipOp.copyOp (PyData.str "x")))
        [ClipOp.pasteOp [], ClipOp.copyOp (PyData.str "y")]).clip =
      some (freshConfig "macosx")) :=
  ⟨by decide,
   config_transition_one_shot "macosx" baseBackend ()
     (ClipOp.copyOp (PyData.str "x"))
     [ClipOp.pasteOp [], ClipOp.copyOp (PyData.str "y")] (by decide)⟩

/-- C5. `_ensure_clipboard` caches exactly three platform variants:
Windows gets (`'text/plain;charset=utf-8'`, `'utf-16-le'`), Linux gets
(`'text/plain;charset=utf-8'`, `'utf-8'`), and every other platform gets
the default (`'text/plain'`, `'utf-8'`); the three pairs are pairwise
distinct. -/
theorem config_three_platform_variants :
    freshConfig "win" = ("text/plain;charset=utf-8", "utf-16-le") ∧
    freshConfig "linux" = ("text/plain;charset=utf-8", "utf-8") ∧
    (∀ p, p ≠ "win" → p ≠ "linux" →
      freshConfig p = ("text/plain", "utf-8")) ∧
    (("text/plain;charset=utf-8", "utf-16-le") ≠
        (("text/plain;charset=utf-8", "utf-8") : String × String) ∧
      ("text/plain;charset=utf-8", "utf-8") ≠
        (("text/plain", "utf-8") : String × String) ∧
      ("text/plain;charset=utf-8", "utf-16-le") ≠
        (("text/plain", "utf-8") : String × String)) := by
  refine ⟨by decide, by decide, ?_, by decide, by decide, by decide⟩
  intro p hw hl
  simp [freshConfig, ensure_clipboard, hw, hl]

/-- Witness for C5 at the concrete platform `'macosx'`, which is neither
`'win'` nor `'linux'`. -/
theorem config_three_platform_variants_witness :
    ("macosx" : String) ≠ "win" ∧ ("macosx" : String) ≠ "linux" ∧
    freshConfig "macosx" = ("text/plain", "utf-8") :=
  ⟨by decide, by decide,
   config_three_platform_variants.2.2.1 "macosx" (by decide) (by decide)⟩

/-- Counterexample to C6 as stated: `_paste` reads the offered MIME types
from the module-global `Clipboard` singleton (`Clipboard.get_types()`),
not from the instance's own backend. A backend that itself advertises
the Linux preferred type and serves data only for it pastes `''` through
the code (the global singleton offers nothing, so `'text/plain'` is
requested) while the claim's own-types reading would paste `'DATA'`. -/
theorem paste_own_types_cex :
    (clipboard_paste "linux" ownTypesBackend [] ⟨none, ()⟩).1 = "" ∧
    pasteClaimOwnTypes "linux" ownTypesBackend ⟨none, ()⟩ = "DATA" ∧
    (clipboard_paste "linux" ownTypesBackend [] ⟨none, ()⟩).1 ≠
      pasteClaimOwnTypes "linux" ownTypesBackend ⟨none, ()⟩ := by
  refine ⟨?_, ?_, ?_⟩ <;> decide

/-- C6 amended. `paste()` queries the module-global `Clipboard`
singleton's supported MIME types; if the instance's cached preferred
MIME type is not among them it retrieves with the generic `'text/plain'`
type; byte data is decoded with the cached encoding under the
`'ignore'` handler; NUL characters are stripped. -/
theorem paste_refines_global_types_spec {σ : Type} (platform : String)
    (B : Backend σ) (globalTypes : List String) (st : ClipState σ) :
    (clipboard_paste platform B globalTypes st).1 =
      pasteSpecGlobalTypes platform B globalTypes st := by
  simp only [clipboard_paste, pasteSpecGlobalTypes, chooseMime]
  cases B.get st.backend
      (if (ensure_clipboard platform st.clip).1 ∈ globalTypes then
        (ensure_clipboard platform st.clip).1 else "text/plain") with
  | none => rfl
  | some d => cases d <;> rfl

/-- Counterexample to C7 as stated: the two base imports (`tuio`,
`mouse`) are not inside any `try/except`; when importing `tuio` fails,
the fault propagates out of the module body instead of becoming a log
entry. -/
theorem input_provider_import_cex :
    loadInputProviders tuioFailsEnv =
      Except.error "kivy.input.providers.tuio" := by
  rfl

/-- C7 amended. Whenever the two unguarded base imports (`tuio` and
`mouse`) succeed, the module body never propagates a fault: every other
candidate's import failure is contained by its `try/except` and turns
into at most a log entry, whatever the platform, `KIVY_DOC` setting,
`USE_SDL3` flag, and pattern of failing imports. -/
theorem guarded_imports_never_propagate (env : ImportEnv)
    (h1 : env.canImport "kivy.input.providers.tuio" = true)
    (h2 : env.canImport "kivy.input.providers.mouse" = true) :
    ∃ mods logs, loadInputProviders env = Except.ok (mods, logs) := by
  simp only [loadInputProviders, runImport, h1, h2, if_true]
  exact ⟨_, _, rfl⟩

/-- Witness for C7 amended: a Linux documentation-build environment in
which every import succeeds runs the whole module body without fault. -/
theorem guarded_imports_never_propagate_witness :
    (ImportEnv.mk "linux" true false (fun _ => true)).canImport
        "kivy.input.providers.tuio" = true ∧
    ∃ mods logs,
      loadInputProviders (ImportEnv.mk "linux" true false (fun _ => true)) =
        Except.ok (mods, logs) :=
  ⟨rfl,
   guarded_imports_never_propagate
     (ImportEnv.mk "linux" true false (fun _ => true)) rfl rfl⟩

/-- C8. `get_provider_modules` hands back a fresh dictionary cell, never
the registry's own: the returned address differs from the registry's, a
caller overwriting the returned cell leaves the registry's cell holding
its original contents, and a subsequent accessor call still returns
those original contents. -/
theorem get_provider_modules_returns_copy (h : RegistryHeap)
    (cat : String) (a₀ : Nat) (d₀ d' : List (String × String))
    (hreg : h.registry.lookup cat = some a₀)
    (hdict : h.dicts.get? a₀ = some d₀) :
    get_provider_modules h cat =
      some (h.dicts.length, ⟨h.dicts ++ [d₀], h.registry⟩) ∧
    a₀ ≠ h.dicts.length ∧
    mutateDict ⟨h.dicts ++ [d₀], h.registry⟩ h.dicts.length d' =
      ⟨h.dicts ++ [d'], h.registry⟩ ∧
    (h.dicts ++ [d']).get? a₀ = some d₀ ∧
    get_provider_modules ⟨h.dicts ++ [d'], h.registry⟩ cat =
      some ((h.dicts ++ [d']).length,
        ⟨(h.dicts ++ [d']) ++ [d₀], h.registry⟩) := by
  have hlt : a₀ < h.dicts.length := by
    by_contra hge
    push_neg at hge
    rw [List.get?_eq_none.mpr hge] at hdict
    exact Option.noConfusion hdict
  have hget : (h.dicts ++ [d']).get? a₀ = some d₀ := by
    rw [List.get?_eq_getElem?] at hdict ⊢
    rw [List.getElem?_append_left hlt]; exact hdict
  have hdict2 : h.dicts[a₀]? = some d₀ := by
    rw [← List.get?_eq_getElem?]; exact hdict
  have hget2 : (h.dicts ++ [d'])[a₀]? = some d₀ := by
    rw [← List.get?_eq_getElem?]; exact hget
  refine ⟨?_, Nat.ne_of_lt hlt, ?_, hget, ?_⟩
  · simp [get_provider_modules, hreg, hdict2]
  · simp [mutateDict, set_concat_length]
  · simp [get_provider_modules, hreg, hget2]

/-- Witness for C8 on a one-category heap mirroring the Python test:
reading the clipboard mapping, then writing `('test', 'test_module')`
into the returned dictionary, leaves the registry's dictionary and the
next accessor result unchanged. -/
theorem get_provider_modules_returns_copy_witness :
    (RegistryHeap.mk [[("sdl3", "clipboard_sdl3")]]
        [("clipboard", 0)]).registry.lookup "clipboard" = some 0 ∧
    (RegistryHeap.mk [[("sdl3", "clipboard_sdl3")]]
        [("clipboard", 0)]).dicts.get? 0 = some [("sdl3", "clipboard_sdl3")] ∧
    (get_provider_modules
        (RegistryHeap.mk [[("sdl3", "clipboard_sdl3")]] [("clipboard", 0)])
        "clipboard" =
      some (1, ⟨[[("sdl3", "clipboard_sdl3")], [("sdl3", "clipboard_sdl3")]],
        [("clipboard", 0)]⟩) ∧
    0 ≠ 1 ∧
    mutateDict ⟨[[("sdl3", "clipboard_sdl3")], [("sdl3", "clipboard_sdl3")]],
        [("clipboard", 0)]⟩ 1 [("test", "test_module")] =
      ⟨[[("sdl3", "clipboard_sdl3")], [("test", "test_module")]],
        [("clipboard", 0)]⟩ ∧
    [[("sdl3", "clipboard_sdl3")], [("test", "test_module")]].get? 0 =
      some [("sdl3", "clipboard_sdl3")] ∧
    get_provider_modules
        ⟨[[("sdl3", "clipboard_sdl3")], [("test", "test_module")]],
          [("clipboard", 0)]⟩ "clipboard" =
      some (2, ⟨[[("sdl3", "clipboard_sdl3")], [("test", "test_module")],
        [("sdl3", "clipboard_sdl3")]], [("clipboard", 0)]⟩)) :=
  ⟨rfl, rfl,
   get_provider_modules_returns_copy
     (RegistryHeap.mk [[("sdl3", "clipboard_sdl3")]] [("clipboard", 0)])
     "clipboard" 0 [("sdl3", "clipboard_sdl3")] [("test", "test_module")]
     rfl rfl⟩

/-- C9. For every platform string and every value of the `USE_SDL3`
flag (and whatever the registry's clipboard mapping holds), the
assembled `_clipboards` candidate list is non-empty and its last entry
is the `'dummy'` provider tuple (`ClipboardDummy`). -/
theorem clipboards_end_with_dummy (platform : String) (useSDL3 : Bool)
    (allProviders : List (String × String)) :
    build_clipboards platform useSDL3 allProviders ≠ [] ∧
    (build_clipboards platform useSDL3 allProviders).getLast? =
      some (make_provider_tuple "dummy" allProviders "ClipboardDummy") := by
  have hlast : (build_clipboards platform useSDL3 allProviders).getLast? =
      some (make_provider_tuple "dummy" allProviders "ClipboardDummy") := by
    simp only [build_clipboards]
    exact List.getLast?_concat _
  refine ⟨fun hc => ?_, hlast⟩
  rw [hc] at hlast
  exact Option.noConfusion hlast

/-- C10. `CutBuffer` is `None` off Linux; on Linux it aliases the very
`Clipboard` object whenever the selected clipboard's class name is one
of the two cut-buffer candidates (`ClipboardXclip`, `ClipboardXsel`) —
independently of what a second selection would return — and otherwise
it is whatever the second selection over exactly those two candidates
yields. -/
theorem cut_buffer_aliasing (platform : String)
    (allProviders : List (String × String)) (clipboard : ProviderInstance)
    (select : List (String × Option String × String) →
      Option ProviderInstance) :
    (platform ≠ "linux" →
      cut_buffer platform allProviders clipboard select = none) ∧
    (platform = "linux" →
      clipboard.className ∈ ["ClipboardXclip", "ClipboardXsel"] →
      cut_buffer platform allProviders clipboard select = some clipboard) ∧
    (platform = "linux" →
      clipboard.className ∉ ["ClipboardXclip", "ClipboardXsel"] →
      cut_buffer platform allProviders clipboard select =
        select [make_provider_tuple "xclip" allProviders "ClipboardXclip",
                make_provider_tuple "xsel" allProviders "ClipboardXsel"]) := by
  refine ⟨fun hne => ?_, fun hl hm => ?_, fun hl hm => ?_⟩
  · simp [cut_buffer, hne]
  · subst hl
    simp only [cut_buffer, make_provider_tuple, List.map_cons, List.map_nil,
      if_true]
    simp [hm]
  · subst hl
    simp only [cut_buffer, make_provider_tuple, List.map_cons, List.map_nil,
      if_true]
    simp [hm, make_provider_tuple]

/-- Witness for C10: on Linux, a selected `ClipboardXclip` instance is
aliased as the cut buffer even when the second selection would find
nothing. -/
theorem cut_buffer_aliasing_witness :
    ("linux" : String) = "linux" ∧
    (ProviderInstance.mk "ClipboardXclip" 7).className ∈
      ["ClipboardXclip", "ClipboardXsel"] ∧
    cut_buffer "linux" [] (ProviderInstance.mk "ClipboardXclip" 7)
        (fun _ => none) = some (ProviderInstance.mk "ClipboardXclip" 7) :=
  ⟨rfl, by decide,
   (cut_buffer_aliasing "linux" [] (ProviderInstance.mk "ClipboardXclip" 7)
     (fun _ => none)).2.1 rfl (by decide)⟩
